import Mathlib

/-!
Verification of the london_ride_project_plotly dash application.

Shallow embedding of `dash_app/pages/prediction.py` (the prediction
callback `calculate_prediction` and its feature assembly) and of
`dash_app/app.py` (the routing callback `display_page`).

Numeric UI values (slider/dropdown/radio values, model outputs) are
modelled as rationals; the timestamp produced by `pd.to_datetime` is
modelled as a validated calendar record; the externally loaded sklearn
pipeline is modelled as an opaque function that may raise (return an
exception name).  The callback returns, besides its (message, color)
pair, an explicit trace recording whether feature assembly was entered,
whether the model's predict method was invoked (and on which row), and
whether an error traceback was logged.
-/

instance {ε α : Type} [DecidableEq ε] [DecidableEq α] :
    DecidableEq (Except ε α) := fun x y =>
  match x, y with
  | .error e, .error f =>
    if h : e = f then isTrue (by rw [h]) else isFalse (by simp [h])
  | .error _, .ok _ => isFalse (by simp)
  | .ok _, .error _ => isFalse (by simp)
  | .ok a, .ok b =>
    if h : a = b then isTrue (by rw [h]) else isFalse (by simp [h])

/-- Splits a character list at every occurrence of a separator
character (the splitting `pd.to_datetime` performs on the date-time
string). -/
def splitOnChar (sep : Char) : List Char → List (List Char)
  | [] => [[]]
  | c :: rest =>
    match splitOnChar sep rest with
    | [] => [[c]]
    | g :: gs => if c = sep then [] :: (g :: gs) else (c :: g) :: gs

/-- A string of decimal digits parsed to a natural number
(the numeric fields of the timestamp string). -/
def parseNatDigits (cs : List Char) : Option Nat :=
  if cs.isEmpty then none
  else if cs.all Char.isDigit then
    some (cs.foldl (fun n c => n * 10 + (c.toNat - 48)) 0)
  else none

/-- Gregorian leap-year rule, as used by pandas timestamps. -/
def isLeapYear (y : Nat) : Bool :=
  (y % 4 == 0 && y % 100 != 0) || y % 400 == 0

/-- Number of days in a month of a given year. -/
def daysInMonth (y m : Nat) : Nat :=
  if m == 2 then (if isLeapYear y then 29 else 28)
  else if m == 4 || m == 6 || m == 9 || m == 11 then 30
  else 31

/-- The timestamp produced by `pd.to_datetime` on the assembled
date-time string (only the fields the callback reads). -/
structure Timestamp where
  year : Nat
  month : Nat
  day : Nat
  hour : Nat
deriving DecidableEq, Repr

/-- Model of `pd.to_datetime` on a `"YYYY-MM-DD HH:MM:SS"` string:
splits on space, dash and colon, parses the six numeric fields and
validates calendar ranges; any failure raises a `ValueError`. -/
def to_datetime (s : String) : Except String Timestamp :=
  match splitOnChar (Char.ofNat 32) s.toList with
  | [d, t] =>
    match splitOnChar (Char.ofNat 45) d, splitOnChar (Char.ofNat 58) t with
    | [ys, ms, ds], [hs, mins, ss] =>
      match parseNatDigits ys, parseNatDigits ms, parseNatDigits ds,
            parseNatDigits hs, parseNatDigits mins, parseNatDigits ss with
      | some y, some mo, some da, some h, some mi, some se =>
        if 1 ≤ mo ∧ mo ≤ 12 ∧ 1 ≤ da ∧ da ≤ daysInMonth y mo
            ∧ h ≤ 23 ∧ mi ≤ 59 ∧ se ≤ 59 then
          .ok ⟨y, mo, da, h⟩
        else .error "ValueError"
      | _, _, _, _, _, _ => .error "ValueError"
    | _, _ => .error "ValueError"
  | _ => .error "ValueError"

/-- Python's `f"{hour:02d}"` for a natural number. -/
def fmt2 (h : Nat) : String :=
  if h < 10 then "0" ++ toString h else toString h

/-- The f-string `f"{date_str} {hour:02d}:00:00"` from the callback. -/
def fmtDateTime (date_str : String) (hour : Nat) : String :=
  date_str ++ " " ++ fmt2 hour ++ ":00:00"

/-- Days since 1970-01-01 of a civil date (standard civil-from-days
inverse used to model the pandas day-of-week computation). -/
def daysFromCivil (y m d : Nat) : Int :=
  let yi : Int := if m ≤ 2 then (y : Int) - 1 else (y : Int)
  let era : Int := (if 0 ≤ yi then yi else yi - 399) / 400
  let yoe : Int := yi - era * 400
  let mp : Int := if 2 < m then (m : Int) - 3 else (m : Int) + 9
  let doy : Int := (153 * mp + 2) / 5 + (d : Int) - 1
  let doe : Int := yoe * 365 + yoe / 4 - yoe / 100 + doy
  era * 146097 + doe - 719468

/-- `timestamp.dayofweek` in pandas: 0 = Monday … 6 = Sunday
(1970-01-01 was a Thursday, i.e. 3). -/
def Timestamp.dayofweek (t : Timestamp) : Nat :=
  ((daysFromCivil t.year t.month t.day + 3) % 7).toNat

/-- The season derivation of the callback:
`month in [3,4,5] → 0.0 (Spring); [6,7,8] → 1.0 (Summer);
[9,10,11] → 2.0 (Fall); else → 3.0 (Winter)`. -/
def seasonCalc (month : Nat) : ℚ :=
  if month = 3 ∨ month = 4 ∨ month = 5 then 0
  else if month = 6 ∨ month = 7 ∨ month = 8 then 1
  else if month = 9 ∨ month = 10 ∨ month = 11 then 2
  else 3

/-- `EXPECTED_COLUMNS` from the callback: the fixed eleven-column
schema the trained pipeline expects. -/
def EXPECTED_COLUMNS : List String :=
  ["t1", "t2", "hum", "wind_speed",
   "weather_code", "is_holiday", "is_weekend", "season",
   "hour", "day_of_week", "month"]

/-- The one-row DataFrame dict literal `X_new`, in the insertion order
of the source.  `t1` and `t2` are both filled from the single
feels-like temperature input; `float(...)` casts are identities on
rationals. -/
def buildRow (temp_feels humidity wind_speed weather is_holiday
    is_weekend season_calc : ℚ) (ts : Timestamp) : List (String × ℚ) :=
  [("t1", temp_feels),
   ("t2", temp_feels),
   ("hum", humidity),
   ("wind_speed", wind_speed),
   ("weather_code", weather),
   ("is_holiday", is_holiday),
   ("is_weekend", is_weekend),
   ("season", season_calc),
   ("hour", (ts.hour : ℚ)),
   ("day_of_week", (ts.dayofweek : ℚ)),
   ("month", (ts.month : ℚ))]

/-- Column selection `X_new[EXPECTED_COLUMNS]`: picks each named column
in the given order; a missing column raises a `KeyError`. -/
def reindex (cols : List String) (row : List (String × ℚ)) :
    Except String (List (String × ℚ)) :=
  match cols with
  | [] => .ok []
  | c :: cs =>
    match row.lookup c with
    | none => .error "KeyError"
    | some v =>
      match reindex cs row with
      | .error e => .error e
      | .ok rest => .ok ((c, v) :: rest)

/-- Steps 4–5 of the callback body: build the combined date-time
string, parse it, derive the season, build the one-row table and
enforce the expected column order.  Any raised exception surfaces as
`.error` with the exception type name. -/
def assembledRow (date_str : String) (hour : Nat)
    (temp_feels humidity wind_speed weather is_holiday is_weekend : ℚ) :
    Except String (List (String × ℚ)) :=
  match to_datetime (fmtDateTime date_str hour) with
  | .error e => .error e
  | .ok ts =>
    reindex EXPECTED_COLUMNS
      (buildRow temp_feels humidity wind_speed weather is_holiday
        is_weekend (seasonCalc ts.month) ts)

/-- Python's `round` on the model output: round half to even.
`mkRat (2 * f + 1) 2` is the midpoint `f + 1/2` between the two
candidate integers, so the three branches are the fractional part
being below, above, or exactly at one half. -/
def roundHalfEven (q : ℚ) : ℤ :=
  let f := Rat.floor q
  let mid := mkRat (2 * f + 1) 2
  if q < mid then f
  else if mid < q then f + 1
  else if f % 2 = 0 then f else f + 1

/-- Step 7 of the callback: `max(0, int(round(prediction_value)))`. -/
def predictedCount (v : ℚ) : ℤ :=
  max 0 (roundHalfEven v)

/-- Groups a reversed digit list into blocks of three, for the
thousands separator of `f"{predicted_count:,}"`. -/
def chunk3 : List Char → List (List Char)
  | a :: b :: c :: rest => [a, b, c] :: chunk3 rest
  | [] => []
  | l => [l]

/-- Python's `f"{n:,}"` formatting of an integer. -/
def commaFmt (n : ℤ) : String :=
  let groups := (chunk3 (toString n.natAbs).toList.reverse).map
    (fun g => String.mk g.reverse)
  let body := String.intercalate "," groups.reverse
  if n < 0 then "-" ++ body else body

/-- The value of the reordered one-row table as a function of the
callback inputs: `reindex EXPECTED_COLUMNS (buildRow …)` computes to
exactly this list (proved below), which makes every field's value
explicit. -/
def explicitRow (temp_feels humidity wind_speed weather is_holiday
    is_weekend season_calc : ℚ) (ts : Timestamp) : List (String × ℚ) :=
  [("t1", temp_feels),
   ("t2", temp_feels),
   ("hum", humidity),
   ("wind_speed", wind_speed),
   ("weather_code", weather),
   ("is_holiday", is_holiday),
   ("is_weekend", is_weekend),
   ("season", season_calc),
   ("hour", (ts.hour : ℚ)),
   ("day_of_week", (ts.dayofweek : ℚ)),
   ("month", (ts.month : ℚ))]

/-- The externally loaded sklearn pipeline: an opaque predictor from a
one-row feature table to a raw prediction, which may raise (the string
is the exception type name). -/
def Model : Type := List (String × ℚ) → Except String ℚ

/-- The eight State values gathered by the callback; each may be
`None`. -/
structure Inputs where
  date_str : Option String
  hour : Option Nat
  temp_feels : Option ℚ
  humidity : Option ℚ
  wind_speed : Option ℚ
  weather : Option ℚ
  is_holiday : Option ℚ
  is_weekend : Option ℚ
deriving DecidableEq

/-- What the callback returns to Dash: `PreventUpdate`, or a
(message, color) pair for the alert. -/
inductive CbReturn where
  | preventUpdate
  | output (message : String) (color : String)
deriving DecidableEq, Repr

/-- Instrumentation of one callback invocation: whether the `try`
block (feature assembly) was entered, the row passed to
`model_pipeline.predict` if it was invoked, and whether an error
traceback was printed. -/
structure Trace where
  assemblyAttempted : Bool
  predictCalledWith : Option (List (String × ℚ))
  loggedTraceback : Bool
deriving DecidableEq

/-- The trace of an invocation that never enters the `try` block. -/
def Trace.none : Trace := ⟨false, Option.none, false⟩

/-- The message of branch 2 of the callback. -/
def modelNotLoadedMsg : String :=
  "Model not loaded. Check app.py console for loading error."

/-- The message of branch 3 of the callback. -/
def missingInputsMsg : String :=
  "Please ensure all input fields have a valid value selected."

/-- The `except` branch message:
`f"Prediction Failed ({type(e).__name__}). Please check the console traceback for details."`. -/
def failureMsg (e : String) : String :=
  "Prediction Failed (" ++ e ++ "). Please check the console traceback for details."

/-- The success message:
`f"Predicted Hourly Bike Shares: {predicted_count:,}"`. -/
def successMsg (count : ℤ) : String :=
  "Predicted Hourly Bike Shares: " ++ commaFmt count

/-- The `try` block of the callback (steps 4–7): assemble the feature
row, invoke `model_pipeline.predict`, format the result; any exception
(from assembly or prediction) is caught by the `except` branch, which
logs the traceback and reports the exception type name with danger
color. -/
def tryBlock (model : Model) (date_str : String) (hour : Nat)
    (temp_feels humidity wind_speed weather is_holiday is_weekend : ℚ) :
    CbReturn × Trace :=
  match assembledRow date_str hour temp_feels humidity wind_speed
      weather is_holiday is_weekend with
  | .error e => (.output (failureMsg e) "danger", ⟨true, Option.none, true⟩)
  | .ok X =>
    match model X with
    | .error e => (.output (failureMsg e) "danger", ⟨true, some X, true⟩)
    | .ok v =>
      (.output (successMsg (predictedCount v)) "success",
       ⟨true, some X, false⟩)

/-- The prediction callback `calculate_prediction` of
`dash_app/pages/prediction.py`, with its instrumentation trace.
Branch order follows the source: (1) `PreventUpdate` when the button
was never clicked; (2) model not loaded; (3) missing inputs; then the
`try` block assembling the feature row, predicting and formatting,
whose exceptions are caught and reported.  The function is total:
no exception escapes to the caller. -/
def calculate_prediction (model_pipeline : Option Model) (n_clicks : Nat)
    (i : Inputs) : CbReturn × Trace :=
  if n_clicks = 0 then (.preventUpdate, Trace.none)
  else
    match model_pipeline with
    | none => (.output modelNotLoadedMsg "danger", Trace.none)
    | some model =>
      match i.date_str, i.hour, i.temp_feels, i.humidity, i.wind_speed,
            i.weather, i.is_holiday, i.is_weekend with
      | some date_str, some hour, some temp_feels, some humidity,
        some wind_speed, some weather, some is_holiday, some is_weekend =>
        tryBlock model date_str hour temp_feels humidity wind_speed
          weather is_holiday is_weekend
      | _, _, _, _, _, _, _, _ =>
        (.output missingInputsMsg "warning", Trace.none)

/-- The pages the routing callback can return. -/
inductive Page where
  | introduction
  | dataAnalysis
  | prediction
  | notFound (pathname : String)
deriving DecidableEq, Repr

/-- The routing callback `display_page` of `dash_app/app.py`. -/
def display_page (pathname : String) : Page :=
  if pathname = "/" then .introduction
  else if pathname = "/analysis" then .dataAnalysis
  else if pathname = "/prediction" then .prediction
  else .notFound pathname

example : to_datetime "2023-07-15 09:00:00" = .ok ⟨2023, 7, 15, 9⟩ := by decide
example : to_datetime "2023-02-29 09:00:00" = .error "ValueError" := by decide
example : (Timestamp.mk 2023 7 15 9).dayofweek = 5 := by decide
example : (Timestamp.mk 1970 1 1 0).dayofweek = 3 := by decide
example : commaFmt 1234567 = "1,234,567" := by rfl
example : commaFmt 300 = "300" := by rfl
example : roundHalfEven (mkRat 5 2) = 2 := by decide
example : roundHalfEven (mkRat 7 2) = 4 := by decide
example : roundHalfEven (mkRat (-1) 2) = 0 := by decide

/-! ## Helper lemmas -/

/-- Column reordering on the dict literal computes to the explicit
row: every lookup succeeds and the values land in schema order. -/
theorem reindex_buildRow (t hu w wc ho we s : ℚ) (ts : Timestamp) :
    reindex EXPECTED_COLUMNS (buildRow t hu w wc ho we s ts) =
      .ok (explicitRow t hu w wc ho we s ts) := by
  rfl

/-- Bridging equation from the Batteries floor used in the embedding
to the Mathlib floor. -/
theorem rat_floor_eq_floor (q : ℚ) : Rat.floor q = ⌊q⌋ :=
  (Rat.floor_def' q).trans Rat.floor_def.symm

/-- `roundHalfEven` written with the Mathlib floor and the midpoint
spelled out. -/
theorem roundHalfEven_ite (q : ℚ) :
    roundHalfEven q =
      if q < (⌊q⌋ : ℚ) + 1/2 then ⌊q⌋
      else if (⌊q⌋ : ℚ) + 1/2 < q then ⌊q⌋ + 1
      else if ⌊q⌋ % 2 = 0 then ⌊q⌋ else ⌊q⌋ + 1 := by
  have hmid : (mkRat (2 * ⌊q⌋ + 1) 2 : ℚ) = (⌊q⌋ : ℚ) + 1/2 := by
    rw [Rat.mkRat_eq_div]
    push_cast
    ring
  simp only [roundHalfEven, rat_floor_eq_floor, hmid]

/-- A negative argument rounds to a nonpositive integer. -/
theorem roundHalfEven_nonpos (v : ℚ) (hv : v < 0) : roundHalfEven v ≤ 0 := by
  have hf0 : ⌊v⌋ < 0 := by
    rw [Int.floor_lt]
    exact_mod_cast hv
  rw [roundHalfEven_ite]
  split_ifs <;> omega

/-- `roundHalfEven` rounds to a nearest integer. -/
theorem abs_sub_roundHalfEven (v : ℚ) :
    |v - (roundHalfEven v : ℚ)| ≤ 1/2 := by
  have h1 := Int.floor_le v
  have h2 := Int.lt_floor_add_one v
  rw [roundHalfEven_ite]
  split_ifs with ha hb hc <;>
    · rw [abs_sub_le_iff]
      simp only [not_lt] at *
      constructor <;> push_cast <;> linarith

/-- Unfolding of the callback when the model is loaded, the button was
clicked and every input is present. -/
theorem calc_allSome (f : Model) (n : Nat) (hn : n ≠ 0) (d : String)
    (h : Nat) (t hu w wc ho we : ℚ) :
    calculate_prediction (some f) n
        ⟨some d, some h, some t, some hu, some w, some wc, some ho, some we⟩
      = tryBlock f d h t hu w wc ho we := by
  unfold calculate_prediction
  rw [if_neg hn]

/-- Unfolding of the callback when the button was clicked and some
gathered input is `None`. -/
theorem calc_missing (f : Model) (n : Nat) (i : Inputs) (hn : n ≠ 0)
    (hmiss : i.date_str = Option.none ∨ i.hour = Option.none
      ∨ i.temp_feels = Option.none ∨ i.humidity = Option.none
      ∨ i.wind_speed = Option.none ∨ i.weather = Option.none
      ∨ i.is_holiday = Option.none ∨ i.is_weekend = Option.none) :
    calculate_prediction (some f) n i
      = (.output missingInputsMsg "warning", Trace.none) := by
  obtain ⟨d, h, t, hu, w, wc, ho, we⟩ := i
  unfold calculate_prediction
  rw [if_neg hn]
  rcases d with _ | d <;> rcases h with _ | h <;> rcases t with _ | t <;>
    rcases hu with _ | hu <;> rcases w with _ | w <;> rcases wc with _ | wc <;>
    rcases ho with _ | ho <;> rcases we with _ | we <;>
    first
      | rfl
      | simp only [Option.some_ne_none, or_self, or_false, false_or] at hmiss

/-- With a missing input, the predict method is never invoked,
whether or not the model is loaded and the button was clicked. -/
theorem calc_predict_none_of_missing (p : Option Model) (n : Nat)
    (i : Inputs)
    (hmiss : i.date_str = Option.none ∨ i.hour = Option.none
      ∨ i.temp_feels = Option.none ∨ i.humidity = Option.none
      ∨ i.wind_speed = Option.none ∨ i.weather = Option.none
      ∨ i.is_holiday = Option.none ∨ i.is_weekend = Option.none) :
    (calculate_prediction p n i).2.predictCalledWith = Option.none := by
  by_cases hn : n = 0
  · subst hn
    rfl
  · cases p with
    | none =>
      unfold calculate_prediction
      rw [if_neg hn]
      rfl
    | some f =>
      rw [calc_missing f n i hn hmiss]
      rfl

/-- The feature assembly as a map over the parse result: a failed
parse propagates the exception, a successful parse yields the explicit
row for the parsed timestamp. -/
theorem assembledRow_map (d : String) (h : Nat) (t hu w wc ho we : ℚ) :
    assembledRow d h t hu w wc ho we =
      (to_datetime (fmtDateTime d h)).map
        (fun ts => explicitRow t hu w wc ho we (seasonCalc ts.month) ts) := by
  unfold assembledRow
  rcases htd : to_datetime (fmtDateTime d h) with e | ts <;> rfl

/-- Any row passed to predict during some invocation of the callback
is the explicit row for some input values and parsed timestamp, with
the season derived from the timestamp's month. -/
theorem tryBlock_shape (f : Model) (d : String) (h : Nat)
    (t hu w wc ho we : ℚ) (X : List (String × ℚ))
    (hX : (tryBlock f d h t hu w wc ho we).2.predictCalledWith = some X) :
    ∃ ts : Timestamp, to_datetime (fmtDateTime d h) = .ok ts ∧
      X = explicitRow t hu w wc ho we (seasonCalc ts.month) ts := by
  unfold tryBlock at hX
  split at hX
  · simp at hX
  · rename_i Y hA
    rw [assembledRow_map] at hA
    rcases htd : to_datetime (fmtDateTime d h) with e2 | ts <;>
      rw [htd] at hA
    · simp [Except.map] at hA
    · simp only [Except.map, Except.ok.injEq] at hA
      split at hX <;>
        · simp only [Option.some.injEq] at hX
          exact ⟨ts, rfl, hX ▸ hA.symm⟩

/-- Global version of `tryBlock_shape` for the whole callback. -/
theorem predictCalledWith_shape (p : Option Model) (n : Nat) (i : Inputs)
    (X : List (String × ℚ))
    (hX : (calculate_prediction p n i).2.predictCalledWith = some X) :
    ∃ t hu w wc ho we : ℚ, ∃ ts : Timestamp,
      X = explicitRow t hu w wc ho we (seasonCalc ts.month) ts := by
  unfold calculate_prediction at hX
  by_cases hn : n = 0
  · rw [if_pos hn] at hX
    simp [Trace.none] at hX
  · rw [if_neg hn] at hX
    cases p with
    | none => simp [Trace.none] at hX
    | some f =>
      obtain ⟨d0, h0, t0, hu0, w0, wc0, ho0, we0⟩ := i
      rcases d0 with _ | d <;> rcases h0 with _ | h <;>
        rcases t0 with _ | t <;> rcases hu0 with _ | hu <;>
        rcases w0 with _ | w <;> rcases wc0 with _ | wc <;>
        rcases ho0 with _ | ho <;> rcases we0 with _ | we
      all_goals try simp only [Trace.none, reduceCtorEq] at hX
      obtain ⟨ts, -, hXe⟩ := tryBlock_shape f d h t hu w wc ho we X hX
      exact ⟨t, hu, w, wc, ho, we, ts, hXe⟩

/-- A model used in concrete evaluations: always predicts 300. -/
def demoModel : Model := fun _ => Except.ok 300

/-- A model used in concrete evaluations: always predicts -7/2. -/
def demoNegModel : Model := fun _ => Except.ok (mkRat (-7) 2)

/-- Fully populated concrete callback inputs for 2023-07-15 09:00. -/
def demoInputs : Inputs :=
  ⟨some "2023-07-15", some 9, some 15, some 60, some 20, some 3,
   some 0, some 0⟩

/-- The feature row the callback assembles for `demoInputs`
(2023-07-15 was a Saturday, so day_of_week is 5; July is Summer). -/
def demoRow : List (String × ℚ) :=
  [("t1", 15), ("t2", 15), ("hum", 60), ("wind_speed", 20),
   ("weather_code", 3), ("is_holiday", 0), ("is_weekend", 0),
   ("season", 1), ("hour", 9), ("day_of_week", 5), ("month", 7)]

/-- Concrete callback inputs with every field `None`. -/
def allNoneInputs : Inputs :=
  ⟨Option.none, Option.none, Option.none, Option.none, Option.none,
   Option.none, Option.none, Option.none⟩

example :
    (calculate_prediction (some demoModel) 1 demoInputs).2.predictCalledWith
      = some demoRow := by decide

/-- Concrete callback inputs whose date field is `None`. -/
def missingDateInputs : Inputs :=
  ⟨Option.none, some 9, some 15, some 60, some 20, some 3, some 0, some 0⟩

/-! ## Claims -/

/-- C1: in every invocation in which a one-row feature table is passed
to the model's predict method (in particular every successful
prediction), that table has exactly eleven columns in the fixed order
t1, t2, hum, wind_speed, weather_code, is_holiday, is_weekend, season,
hour, day_of_week, month, regardless of the order in which the fields
were assembled. -/
theorem prediction_row_has_expected_columns (p : Option Model) (n : Nat)
    (i : Inputs) (X : List (String × ℚ))
    (hX : (calculate_prediction p n i).2.predictCalledWith = some X) :
    X.map Prod.fst = EXPECTED_COLUMNS ∧ X.length = 11 := by
  obtain ⟨t, hu, w, wc, ho, we, ts, hXe⟩ := predictCalledWith_shape p n i X hX
  subst hXe
  exact ⟨rfl, rfl⟩

theorem prediction_row_has_expected_columns_witness :
    demoRow.map Prod.fst = EXPECTED_COLUMNS ∧ demoRow.length = 11 :=
  prediction_row_has_expected_columns (some demoModel) 1 demoInputs demoRow
    (by decide)

/-- C2: the derived season field matches calendar arithmetic on every
valid month: 3–5 (Mar–May) yield 0.0 Spring, 6–8 (Jun–Aug, in
particular July) yield 1.0 Summer, 9–11 (Sep–Nov) yield 2.0 Fall, and
the remaining months 12, 1, 2 (Dec–Feb) yield 3.0 Winter. -/
theorem season_matches_calendar (m : Nat) (h1 : 1 ≤ m) (h2 : m ≤ 12) :
    seasonCalc m =
      if 3 ≤ m ∧ m ≤ 5 then 0
      else if 6 ≤ m ∧ m ≤ 8 then 1
      else if 9 ≤ m ∧ m ≤ 11 then 2
      else 3 := by
  interval_cases m <;> decide

theorem season_matches_calendar_witness : seasonCalc 7 = 1 :=
  (season_matches_calendar 7 (by decide) (by decide)).trans (by decide)

/-- C3 counterexample: with the button clicked once, every gathered
input `None` and the model pipeline not loaded, the callback returns
the model-not-loaded message with danger color, not the warning
message with warning color — the model check precedes the missing-input
check, so the claim as stated (quantifying over all invocations) is
false. -/
theorem missing_inputs_warning_counterexample :
    (calculate_prediction Option.none 1 allNoneInputs).1
        = .output modelNotLoadedMsg "danger" ∧
      (calculate_prediction Option.none 1 allNoneInputs).1
        ≠ .output missingInputsMsg "warning" := by
  decide

/-- C3 (amended): provided the model pipeline is loaded, every
invocation with the button clicked at least once in which any of the
eight gathered inputs is `None` returns the warning message with
warning color; and whether or not the pipeline is loaded, the model's
predict method is never invoked on such inputs. -/
theorem missing_inputs_short_circuit (f : Model) (p : Option Model)
    (n : Nat) (i : Inputs) (hn : n ≠ 0)
    (hmiss : i.date_str = Option.none ∨ i.hour = Option.none
      ∨ i.temp_feels = Option.none ∨ i.humidity = Option.none
      ∨ i.wind_speed = Option.none ∨ i.weather = Option.none
      ∨ i.is_holiday = Option.none ∨ i.is_weekend = Option.none) :
    calculate_prediction (some f) n i
        = (.output missingInputsMsg "warning", Trace.none) ∧
      (calculate_prediction p n i).2.predictCalledWith = Option.none :=
  ⟨calc_missing f n i hn hmiss, calc_predict_none_of_missing p n i hmiss⟩

theorem missing_inputs_short_circuit_witness :
    calculate_prediction (some demoModel) 1 missingDateInputs
        = (.output missingInputsMsg "warning", Trace.none) ∧
      (calculate_prediction (some demoModel) 1
          missingDateInputs).2.predictCalledWith = Option.none :=
  missing_inputs_short_circuit demoModel (some demoModel) 1
    missingDateInputs (by decide) (Or.inl rfl)

/-- C4: with the button clicked at least once and the model pipeline
not loaded (`None`), the callback returns the error message with
danger color, and it returns before any feature assembly or inference
is attempted: its trace records that the `try` block was never entered
and predict was never invoked. -/
theorem model_not_loaded_short_circuit (n : Nat) (i : Inputs)
    (hn : n ≠ 0) :
    calculate_prediction Option.none n i
        = (.output modelNotLoadedMsg "danger", Trace.none) ∧
      Trace.none.assemblyAttempted = false ∧
      Trace.none.predictCalledWith = Option.none := by
  refine ⟨?_, rfl, rfl⟩
  unfold calculate_prediction
  rw [if_neg hn]

theorem model_not_loaded_short_circuit_witness :
    calculate_prediction Option.none 1 demoInputs
        = (.output modelNotLoadedMsg "danger", Trace.none) ∧
      Trace.none.assemblyAttempted = false ∧
      Trace.none.predictCalledWith = Option.none :=
  model_not_loaded_short_circuit 1 demoInputs (by decide)

/-- C5: every exception raised during feature assembly (an `.error`
from `assembledRow`: timestamp parsing, table construction or column
reordering) or during the model's predict call is caught by the
callback, which logs the traceback (trace flag) and returns the
generic failure message naming only the exception type, with danger
color.  `calculate_prediction` is a total function, so the exception
never propagates to the caller. -/
theorem assembly_exception_caught (f : Model) (n : Nat) (d : String)
    (h : Nat) (t hu w wc ho we : ℚ) (e : String) (hn : n ≠ 0) :
    (assembledRow d h t hu w wc ho we = .error e →
      calculate_prediction (some f) n
          ⟨some d, some h, some t, some hu, some w, some wc, some ho,
           some we⟩
        = (.output (failureMsg e) "danger", ⟨true, Option.none, true⟩)) ∧
    (∀ X, assembledRow d h t hu w wc ho we = .ok X → f X = .error e →
      calculate_prediction (some f) n
          ⟨some d, some h, some t, some hu, some w, some wc, some ho,
           some we⟩
        = (.output (failureMsg e) "danger", ⟨true, some X, true⟩)) := by
  constructor
  · intro hA
    rw [calc_allSome f n hn]
    simp only [tryBlock, hA]
  · intro X hA hf
    rw [calc_allSome f n hn]
    simp only [tryBlock, hA, hf]

theorem assembly_exception_caught_witness :
    calculate_prediction (some demoModel) 1
        ⟨some "2023-13-99", some 9, some 15, some 60, some 20, some 3,
         some 0, some 0⟩
      = (.output (failureMsg "ValueError") "danger",
         ⟨true, Option.none, true⟩) :=
  (assembly_exception_caught demoModel 1 "2023-13-99" 9 15 60 20 3 0 0
    "ValueError" (by decide)).1 (by decide)

/-- C6: the routing callback returns the introduction layout exactly
when the pathname is "/", the data-analysis layout exactly when it is
"/analysis", the prediction layout exactly when it is "/prediction",
and a 404 page naming the unrecognized path for every other
pathname. -/
theorem display_page_routing (p : String) :
    (display_page p = .introduction ↔ p = "/") ∧
    (display_page p = .dataAnalysis ↔ p = "/analysis") ∧
    (display_page p = .prediction ↔ p = "/prediction") ∧
    (p ≠ "/" → p ≠ "/analysis" → p ≠ "/prediction" →
      display_page p = .notFound p) := by
  unfold display_page
  split_ifs with h1 h2 h3 <;> simp_all

theorem display_page_routing_witness :
    display_page "/nowhere" = .notFound "/nowhere" :=
  (display_page_routing "/nowhere").2.2.2 (by decide) (by decide)
    (by decide)

/-- C7 counterexample: the feature table is not a function of five UI
form values together with date and hour.  The callback fills the table
from six form inputs (feels-like temperature, humidity, wind speed,
weather code, holiday flag, weekend flag); for each of the six,
changing that input alone — date, hour and the other five form values
held fixed — changes the assembled table, so no choice of five of the
six form values (plus date and hour) determines it. -/
theorem feature_row_five_inputs_counterexample :
    assembledRow "2023-07-15" 9 15 60 20 3 0 0
        ≠ assembledRow "2023-07-15" 9 16 60 20 3 0 0 ∧
      assembledRow "2023-07-15" 9 15 60 20 3 0 0
        ≠ assembledRow "2023-07-15" 9 15 65 20 3 0 0 ∧
      assembledRow "2023-07-15" 9 15 60 20 3 0 0
        ≠ assembledRow "2023-07-15" 9 15 60 25 3 0 0 ∧
      assembledRow "2023-07-15" 9 15 60 20 3 0 0
        ≠ assembledRow "2023-07-15" 9 15 60 20 7 0 0 ∧
      assembledRow "2023-07-15" 9 15 60 20 3 0 0
        ≠ assembledRow "2023-07-15" 9 15 60 20 3 1 0 ∧
      assembledRow "2023-07-15" 9 15 60 20 3 0 0
        ≠ assembledRow "2023-07-15" 9 15 60 20 3 0 1 := by
  decide

/-- C7 (amended): the feature table passed to predict is a function of
exactly the six UI form values (feels-like temperature, humidity, wind
speed, weather code, holiday flag, weekend flag) together with the
user-supplied date and hour: for a loaded model and clicked button it
equals `(assembledRow …).toOption`, an expression in the eight
gathered values only — so neither the click count nor the model object
nor any other UI input influences any field of it. -/
theorem feature_row_depends_only_on_form_inputs (f : Model) (n : Nat)
    (hn : n ≠ 0) (d : String) (h : Nat) (t hu w wc ho we : ℚ) :
    (calculate_prediction (some f) n
        ⟨some d, some h, some t, some hu, some w, some wc, some ho,
         some we⟩).2.predictCalledWith
      = (assembledRow d h t hu w wc ho we).toOption := by
  rw [calc_allSome f n hn]
  rcases hA : assembledRow d h t hu w wc ho we with e | X
  · simp only [tryBlock, hA]
    rfl
  · rcases hf : f X with e2 | v <;> simp only [tryBlock, hA, hf] <;> rfl

theorem feature_row_depends_only_on_form_inputs_witness :
    (calculate_prediction (some demoModel) 1
        ⟨some "2023-07-15", some 9, some 15, some 60, some 20, some 3,
         some 0, some 0⟩).2.predictCalledWith
      = (assembledRow "2023-07-15" 9 15 60 20 3 0 0).toOption :=
  feature_row_depends_only_on_form_inputs demoModel 1 (by decide)
    "2023-07-15" 9 15 60 20 3 0 0

/-- C8: feature derivation is deterministic, with an explicit closed
form: whenever the combined date-time string parses to timestamp `ts`,
the assembled table is exactly `explicitRow`, each of whose fields
(including season, hour, day_of_week and month) is determined by the
input tuple — so two evaluations of the feature assembly on equal
inputs produce identical values for every field. -/
theorem feature_assembly_deterministic (d : String) (h : Nat)
    (t hu w wc ho we : ℚ) (ts : Timestamp)
    (htd : to_datetime (fmtDateTime d h) = .ok ts) :
    assembledRow d h t hu w wc ho we
      = .ok (explicitRow t hu w wc ho we (seasonCalc ts.month) ts) := by
  rw [assembledRow_map, htd]
  rfl

theorem feature_assembly_deterministic_witness :
    assembledRow "2023-07-15" 9 15 60 20 3 0 0
      = .ok (explicitRow 15 60 20 3 0 0
          (seasonCalc (Timestamp.mk 2023 7 15 9).month)
          ⟨2023, 7, 15, 9⟩) :=
  feature_assembly_deterministic "2023-07-15" 9 15 60 20 3 0 0
    ⟨2023, 7, 15, 9⟩ (by decide)

/-- C9: for every successful prediction the displayed count is
`max(0, round(v))` for the raw model output `v`: the success message
carries `predictedCount v`, which is non-negative, is 0 whenever the
raw output is negative, and results from rounding to a nearest
integer. -/
theorem predicted_count_nonneg_clamped (f : Model) (n : Nat)
    (d : String) (h : Nat) (t hu w wc ho we : ℚ)
    (X : List (String × ℚ)) (v : ℚ) (hn : n ≠ 0)
    (hA : assembledRow d h t hu w wc ho we = .ok X) (hf : f X = .ok v) :
    calculate_prediction (some f) n
        ⟨some d, some h, some t, some hu, some w, some wc, some ho,
         some we⟩
      = (.output (successMsg (predictedCount v)) "success",
         ⟨true, some X, false⟩) ∧
    0 ≤ predictedCount v ∧ (v < 0 → predictedCount v = 0) ∧
    |v - (roundHalfEven v : ℚ)| ≤ 1/2 := by
  refine ⟨?_, le_max_left 0 _, fun hv => ?_, abs_sub_roundHalfEven v⟩
  · rw [calc_allSome f n hn]
    simp only [tryBlock, hA, hf]
  · exact max_eq_left (roundHalfEven_nonpos v hv)

theorem predicted_count_nonneg_clamped_witness :
    calculate_prediction (some demoNegModel) 1
        ⟨some "2023-07-15", some 9, some 15, some 60, some 20, some 3,
         some 0, some 0⟩
      = (.output (successMsg (predictedCount (mkRat (-7) 2))) "success",
         ⟨true, some demoRow, false⟩) ∧
    0 ≤ predictedCount (mkRat (-7) 2) ∧
    ((mkRat (-7) 2 : ℚ) < 0 → predictedCount (mkRat (-7) 2) = 0) ∧
    |(mkRat (-7) 2 : ℚ) - (roundHalfEven (mkRat (-7) 2) : ℚ)| ≤ 1/2 :=
  predicted_count_nonneg_clamped demoNegModel 1 "2023-07-15" 9 15 60 20
    3 0 0 demoRow (mkRat (-7) 2) (by decide) (by decide) rfl

/-- C10: in every feature table sent to the model, the t1 and t2
columns hold the same value — both are filled from the single
feels-like temperature input. -/
theorem t1_equals_t2 (p : Option Model) (n : Nat) (i : Inputs)
    (X : List (String × ℚ))
    (hX : (calculate_prediction p n i).2.predictCalledWith = some X) :
    ∃ t : ℚ, X.lookup "t1" = some t ∧ X.lookup "t2" = some t := by
  obtain ⟨t, hu, w, wc, ho, we, ts, hXe⟩ := predictCalledWith_shape p n i X hX
  subst hXe
  exact ⟨t, rfl, rfl⟩

theorem t1_equals_t2_witness :
    ∃ t : ℚ, demoRow.lookup "t1" = some t ∧ demoRow.lookup "t2" = some t :=
  t1_equals_t2 (some demoModel) 1 demoInputs demoRow (by decide)
